import Mathlib

/-!
Verification of the fraud-detection service (FastAPI application).

The definitions below are a shallow embedding of the Python source:

* `src/api/routers/ml.py` — artifact loading, risk categorisation, single and
  batch fraud scoring (`load_fraud_models`, `risk_category`,
  `_predict_single_transaction`, `predict_fraud`, `predict_fraud_batch`);
* `src/api/routers/workers.py` — worker CRUD (`get_workers`, `update_worker`);
* `src/api/routers/health.py` — `detailed_health_check`.

Opaque trained artifacts (classifier, scaler, column list) are modelled as
explicit function parameters; Python floats are modelled as rationals;
filesystem and database effects are modelled as explicit input state.
-/

namespace FraudDetection

/-! ## Configuration (`src/core/config.py`)

`Settings` carries the risk thresholds and labels used by `risk_category`.
-/

structure RiskConfig where
  FRAUD_RISK_LOW_THRESHOLD : ℚ
  FRAUD_RISK_HIGH_THRESHOLD : ℚ
  FRAUD_RISK_NORMAL_LABEL : String
  FRAUD_RISK_MODERATE_LABEL : String
  FRAUD_RISK_HIGH_LABEL : String
deriving DecidableEq, Repr

/-- The defaults from `Settings` in `src/core/config.py`. -/
def defaultRiskConfig : RiskConfig where
  FRAUD_RISK_LOW_THRESHOLD := 3 / 10
  FRAUD_RISK_HIGH_THRESHOLD := 7 / 10
  FRAUD_RISK_NORMAL_LABEL := "Normal / No Risk"
  FRAUD_RISK_MODERATE_LABEL := "Moderate Risk (Verify)"
  FRAUD_RISK_HIGH_LABEL := "High Risk (Avoid)"

/-! ## Risk rule (`risk_category`, ml.py lines 97-111) -/

/-- `risk_category(prob)`: `if prob >= HIGH: high elif prob >= LOW: moderate
else: normal`. -/
def risk_category (cfg : RiskConfig) (prob : ℚ) : String :=
  if prob ≥ cfg.FRAUD_RISK_HIGH_THRESHOLD then
    cfg.FRAUD_RISK_HIGH_LABEL
  else if prob ≥ cfg.FRAUD_RISK_LOW_THRESHOLD then
    cfg.FRAUD_RISK_MODERATE_LABEL
  else
    cfg.FRAUD_RISK_NORMAL_LABEL

/-! ## Transactions (pydantic `Transaction` model, ml.py lines 50-68) -/

structure Transaction where
  transaction_id : ℤ
  customer_id : ℤ
  amount : ℚ
  is_weekend : ℤ
  night_transaction : ℤ
  card_not_present : ℤ
  account_age_days : ℤ
  new_merchant : ℤ
  international_txn : ℤ
  impossible_travel : ℤ
  txn_velocity_5min : ℤ
  new_device_high_amount : ℤ
  blacklisted_ip : ℤ
  multiple_cards_same_device : ℤ
  tx_hour : ℤ
  tx_day : ℤ
  tx_month : ℤ
deriving DecidableEq, Repr

/-- `txn.dict()`: the field-name → value map used to build the one-row
dataframe (`pd.DataFrame([txn.dict()])`), in pydantic declaration order. -/
def Transaction.toDict (t : Transaction) : List (String × ℚ) :=
  [("transaction_id", (t.transaction_id : ℚ)),
   ("customer_id", (t.customer_id : ℚ)),
   ("amount", t.amount),
   ("is_weekend", (t.is_weekend : ℚ)),
   ("night_transaction", (t.night_transaction : ℚ)),
   ("card_not_present", (t.card_not_present : ℚ)),
   ("account_age_days", (t.account_age_days : ℚ)),
   ("new_merchant", (t.new_merchant : ℚ)),
   ("international_txn", (t.international_txn : ℚ)),
   ("impossible_travel", (t.impossible_travel : ℚ)),
   ("txn_velocity_5min", (t.txn_velocity_5min : ℚ)),
   ("new_device_high_amount", (t.new_device_high_amount : ℚ)),
   ("blacklisted_ip", (t.blacklisted_ip : ℚ)),
   ("multiple_cards_same_device", (t.multiple_cards_same_device : ℚ)),
   ("tx_hour", (t.tx_hour : ℚ)),
   ("tx_day", (t.tx_day : ℚ)),
   ("tx_month", (t.tx_month : ℚ))]

/-! ## Loaded artifacts and the scoring pipeline
(`_predict_single_transaction`, ml.py lines 136-180)

The trained classifier, scaler and column list are opaque: we model them as
explicit functions over the projected feature vector. `scaler.transform`
maps the row to a scaled row, `model.predict` yields the integer class,
`model.predict_proba(...)[0][1]` yields the class-1 probability.
-/

structure ArtifactSet where
  model_columns : List String
  scalerFn : List ℚ → List ℚ
  predictFn : List ℚ → ℤ
  probaFn : List ℚ → ℚ

/-- `round(x, 4)` on the ideal decimal value: Python rounds half to even. -/
def roundHalfEven (q : ℚ) : ℤ :=
  let f := ⌊q⌋
  let r := q - f
  if r < 1 / 2 then f
  else if 1 / 2 < r then f + 1
  else if f % 2 = 0 then f else f + 1

def pyRound4 (q : ℚ) : ℚ :=
  (roundHalfEven (q * 10000) : ℚ) / 10000

structure FraudPredictionResponse where
  transaction_id : ℚ
  customer_id : ℚ
  fraud_prediction : ℤ
  fraud_probability : ℚ
  risk_level : String
deriving DecidableEq, Repr

/-- A failure raised by `_predict_single_transaction`: in the embedding the
only failing step is the required-column check
(`raise ValueError(f"Missing required columns: ...")`), which carries the
names of the missing columns. -/
structure SchemaMismatch where
  missing_cols : List String
deriving DecidableEq, Repr

/-- `_predict_single_transaction(txn)`: build the one-row frame from
`txn.dict()`, read the ids back from it, check every name in
`model_columns` is among the frame columns, reorder, scale, predict. -/
def predict_single_transaction (cfg : RiskConfig) (arts : ArtifactSet)
    (txn : Transaction) : Except SchemaMismatch FraudPredictionResponse :=
  let d := txn.toDict
  let txn_id := (d.lookup "transaction_id").getD 0
  let cust_id := (d.lookup "customer_id").getD 0
  let missing_cols := arts.model_columns.filter
    (fun col => ¬ (d.map Prod.fst).contains col)
  if missing_cols ≠ [] then
    Except.error ⟨missing_cols⟩
  else
    let df_model := arts.model_columns.map (fun col => (d.lookup col).getD 0)
    let scaled := arts.scalerFn df_model
    let pred := arts.predictFn scaled
    let prob := arts.probaFn scaled
    Except.ok
      { transaction_id := txn_id
        customer_id := cust_id
        fraud_prediction := pred
        fraud_probability := pyRound4 prob
        risk_level := risk_category cfg prob }

/-! ## HTTP endpoints for scoring (ml.py lines 183-268) -/

/-- Request-level failures of the two prediction endpoints, with the HTTP
status they are raised with. -/
inductive ApiError where
  | modelsUnavailable : ApiError
  | emptyBatch : ApiError
  | predictionError (e : SchemaMismatch) : ApiError
deriving DecidableEq, Repr

def ApiError.statusCode : ApiError → ℕ
  | .modelsUnavailable => 503
  | .emptyBatch => 400
  | .predictionError _ => 500

/-- `POST /predict/transaction` (`predict_fraud`): 503 when any of the three
artifacts is missing, otherwise run the single prediction and convert any
failure into a 500. -/
def predict_fraud (cfg : RiskConfig) (state : Option ArtifactSet)
    (txn : Transaction) : Except ApiError FraudPredictionResponse :=
  match state with
  | none => Except.error ApiError.modelsUnavailable
  | some arts =>
    match predict_single_transaction cfg arts txn with
    | Except.error e => Except.error (ApiError.predictionError e)
    | Except.ok r => Except.ok r

structure BatchItemError where
  transaction_index : ℕ
  transaction_id : ℤ
  error : SchemaMismatch
deriving DecidableEq, Repr

structure BatchPredictionResponse where
  total_transactions : ℕ
  successful_predictions : ℕ
  failed_predictions : ℕ
  results : List FraudPredictionResponse
  errors : List BatchItemError
deriving DecidableEq, Repr

/-- The `for i, txn in enumerate(...)` loop body of `predict_fraud_batch`:
starting from index `i`, accumulate successes in order and record each
failure with its index and the item's own `transaction_id`. -/
def processBatch (cfg : RiskConfig) (arts : ArtifactSet) :
    ℕ → List Transaction → List FraudPredictionResponse × List BatchItemError
  | _, [] => ([], [])
  | i, txn :: rest =>
    let p := processBatch cfg arts (i + 1) rest
    match predict_single_transaction cfg arts txn with
    | Except.ok r => (r :: p.1, p.2)
    | Except.error e => (p.1, ⟨i, txn.transaction_id, e⟩ :: p.2)

/-- `POST /predict/transactions/batch` (`predict_fraud_batch`): 503 when the
artifacts are not loaded, then 400 on an empty list, then the per-item loop. -/
def predict_fraud_batch (cfg : RiskConfig) (state : Option ArtifactSet)
    (txns : List Transaction) : Except ApiError BatchPredictionResponse :=
  match state with
  | none => Except.error ApiError.modelsUnavailable
  | some arts =>
    if txns = [] then
      Except.error ApiError.emptyBatch
    else
      let p := processBatch cfg arts 0 txns
      Except.ok
        { total_transactions := txns.length
          successful_predictions := p.1.length
          failed_predictions := p.2.length
          results := p.1
          errors := p.2 }

/-! ## C1: risk tiers match the configured threshold bands -/

/-- C1. For thresholds `low < high` and pairwise distinct configured labels,
`risk_category` returns the high label iff `p ≥ high`, the moderate label iff
`low ≤ p < high`, and the normal label iff `p < low`; in particular the
boundaries are inclusive on the lower bound of each band. -/
theorem risk_category_bands (cfg : RiskConfig) (p : ℚ)
    (hlt : cfg.FRAUD_RISK_LOW_THRESHOLD < cfg.FRAUD_RISK_HIGH_THRESHOLD)
    (hnm : cfg.FRAUD_RISK_NORMAL_LABEL ≠ cfg.FRAUD_RISK_MODERATE_LABEL)
    (hnh : cfg.FRAUD_RISK_NORMAL_LABEL ≠ cfg.FRAUD_RISK_HIGH_LABEL)
    (hmh : cfg.FRAUD_RISK_MODERATE_LABEL ≠ cfg.FRAUD_RISK_HIGH_LABEL) :
    (risk_category cfg p = cfg.FRAUD_RISK_HIGH_LABEL ↔
      p ≥ cfg.FRAUD_RISK_HIGH_THRESHOLD) ∧
    (risk_category cfg p = cfg.FRAUD_RISK_MODERATE_LABEL ↔
      (cfg.FRAUD_RISK_LOW_THRESHOLD ≤ p ∧ p < cfg.FRAUD_RISK_HIGH_THRESHOLD)) ∧
    (risk_category cfg p = cfg.FRAUD_RISK_NORMAL_LABEL ↔
      p < cfg.FRAUD_RISK_LOW_THRESHOLD) ∧
    risk_category cfg cfg.FRAUD_RISK_LOW_THRESHOLD = cfg.FRAUD_RISK_MODERATE_LABEL ∧
    risk_category cfg cfg.FRAUD_RISK_HIGH_THRESHOLD = cfg.FRAUD_RISK_HIGH_LABEL := by
  unfold risk_category
  refine ⟨?_, ?_, ?_, ?_, ?_⟩
  · split_ifs with h1 h2
    · simp [h1]
    · exact ⟨fun h => absurd h hmh, fun h => absurd h h1⟩
    · exact ⟨fun h => absurd h hnh, fun h => absurd h h1⟩
  · split_ifs with h1 h2
    · exact ⟨fun h => absurd h.symm hmh, fun h => absurd h1 h.2.not_le⟩
    · exact ⟨fun _ => ⟨h2, lt_of_not_le h1⟩, fun _ => rfl⟩
    · exact ⟨fun h => absurd h hnm, fun h => absurd h.1 h2⟩
  · split_ifs with h1 h2
    · exact ⟨fun h => absurd h.symm hnh, fun h => absurd h1 (h.trans hlt).not_le⟩
    · exact ⟨fun h => absurd h.symm hnm, fun h => absurd h2 h.not_le⟩
    · exact ⟨fun _ => lt_of_not_le h2, fun _ => rfl⟩
  · rw [if_neg (not_le.mpr hlt), if_pos le_rfl]
  · rw [if_pos le_rfl]

/-- Witness for C1 at the default configuration and a concrete probability. -/
theorem risk_category_bands_witness :
    risk_category defaultRiskConfig (3 / 10) =
      defaultRiskConfig.FRAUD_RISK_MODERATE_LABEL ∧
    risk_category defaultRiskConfig (7 / 10) =
      defaultRiskConfig.FRAUD_RISK_HIGH_LABEL := by
  have h := risk_category_bands defaultRiskConfig (3 / 10)
    (by norm_num [defaultRiskConfig]) (by decide) (by decide) (by decide)
  exact ⟨h.2.2.2.1, h.2.2.2.2⟩

/-! ## Batch loop invariants (helpers for the claims about
`predict_fraud_batch`) -/

theorem processBatch_results (cfg : RiskConfig) (arts : ArtifactSet)
    (i : ℕ) (l : List Transaction) :
    (processBatch cfg arts i l).1 =
      l.filterMap (fun t => (predict_single_transaction cfg arts t).toOption) := by
  induction l generalizing i with
  | nil => rfl
  | cons t rest ih =>
    simp only [processBatch, List.filterMap_cons]
    cases h : predict_single_transaction cfg arts t <;>
      simp [h, Except.toOption, ih]

theorem processBatch_length (cfg : RiskConfig) (arts : ArtifactSet)
    (i : ℕ) (l : List Transaction) :
    (processBatch cfg arts i l).1.length + (processBatch cfg arts i l).2.length
      = l.length := by
  induction l generalizing i with
  | nil => rfl
  | cons t rest ih =>
    simp only [processBatch]
    cases h : predict_single_transaction cfg arts t
    all_goals
      simp only [h, List.length_cons]
      have := ih (i + 1)
      omega

theorem processBatch_errors (cfg : RiskConfig) (arts : ArtifactSet)
    (i : ℕ) (l : List Transaction) :
    ∀ e ∈ (processBatch cfg arts i l).2, ∃ j t, l[j]? = some t ∧
      e.transaction_index = i + j ∧
      predict_single_transaction cfg arts t = Except.error e.error ∧
      e.transaction_id = t.transaction_id := by
  induction l generalizing i with
  | nil => intro e he; simp [processBatch] at he
  | cons t rest ih =>
    intro e he
    simp only [processBatch] at he
    cases h : predict_single_transaction cfg arts t with
    | ok r =>
      rw [h] at he
      obtain ⟨j, t2, hj, hidx, herr, hid⟩ := ih (i + 1) e he
      exact ⟨j + 1, t2, by simpa using hj, by omega, herr, hid⟩
    | error err =>
      rw [h] at he
      rcases List.mem_cons.mp he with he0 | he1
      · subst he0
        exact ⟨0, t, by simp, by simp, h, rfl⟩
      · obtain ⟨j, t2, hj, hidx, herr, hid⟩ := ih (i + 1) e he1
        exact ⟨j + 1, t2, by simpa using hj, by omega, herr, hid⟩

/-! ## C2: batch accounting invariants -/

/-- C2. With artifacts loaded and a non-empty batch, `predict_fraud_batch`
succeeds; the reported total equals the input length and equals
succeeded + failed; `results` is exactly the successful predictions in input
order; every error entry carries the zero-based input index of a failing
item together with that item's own `transaction_id`. -/
theorem predict_fraud_batch_accounting (cfg : RiskConfig) (arts : ArtifactSet)
    (txns : List Transaction) (hne : txns ≠ []) :
    ∃ r, predict_fraud_batch cfg (some arts) txns = Except.ok r ∧
      r.total_transactions = txns.length ∧
      r.successful_predictions + r.failed_predictions = r.total_transactions ∧
      r.results = txns.filterMap
        (fun t => (predict_single_transaction cfg arts t).toOption) ∧
      ∀ e ∈ r.errors, ∃ t, txns[e.transaction_index]? = some t ∧
        predict_single_transaction cfg arts t = Except.error e.error ∧
        e.transaction_id = t.transaction_id := by
  simp only [predict_fraud_batch, if_neg hne]
  refine ⟨_, rfl, rfl, ?_, ?_, ?_⟩
  · exact processBatch_length cfg arts 0 txns
  · exact processBatch_results cfg arts 0 txns
  · intro e he
    obtain ⟨j, t, hj, hidx, herr, hid⟩ := processBatch_errors cfg arts 0 txns e he
    refine ⟨t, ?_, herr, hid⟩
    rw [hidx]
    simpa using hj

/-- Example artifact set used for concrete witnesses: the column list asks
only for `amount`; the opaque scaler/classifier are concrete functions. -/
def exampleArtifacts : ArtifactSet where
  model_columns := ["amount"]
  scalerFn := fun v => v
  predictFn := fun _ => 1
  probaFn := fun _ => 209 / 250

/-- Example transaction used for concrete witnesses. -/
def exampleTransaction : Transaction where
  transaction_id := 7
  customer_id := 99
  amount := 1250
  is_weekend := 0
  night_transaction := 1
  card_not_present := 1
  account_age_days := 12
  new_merchant := 1
  international_txn := 0
  impossible_travel := 0
  txn_velocity_5min := 3
  new_device_high_amount := 1
  blacklisted_ip := 0
  multiple_cards_same_device := 0
  tx_hour := 2
  tx_day := 14
  tx_month := 6

/-- Witness for C2 on a concrete one-element batch. -/
theorem predict_fraud_batch_accounting_witness :
    ∃ r, predict_fraud_batch defaultRiskConfig (some exampleArtifacts)
        [exampleTransaction] = Except.ok r ∧
      r.total_transactions = [exampleTransaction].length ∧
      r.successful_predictions + r.failed_predictions = r.total_transactions ∧
      r.results = [exampleTransaction].filterMap
        (fun t =>
          (predict_single_transaction defaultRiskConfig exampleArtifacts
            t).toOption) ∧
      ∀ e ∈ r.errors, ∃ t,
        [exampleTransaction][e.transaction_index]? = some t ∧
        predict_single_transaction defaultRiskConfig exampleArtifacts t =
          Except.error e.error ∧
        e.transaction_id = t.transaction_id :=
  predict_fraud_batch_accounting defaultRiskConfig exampleArtifacts
    [exampleTransaction] (List.cons_ne_nil _ _)

/-! ## C4: batch guards run before any per-item work -/

/-- C4. `predict_fraud_batch` fails with `ModelsUnavailable` (HTTP 503) for
any input whenever the artifact set is not loaded, and with `EmptyBatch`
(HTTP 400) on an empty input for every loaded artifact set — the empty-batch
outcome is the same for all artifact sets, so the classifier, scaler and
column list are never consulted. -/
theorem predict_fraud_batch_guards (cfg : RiskConfig)
    (txns : List Transaction) (arts : ArtifactSet) :
    predict_fraud_batch cfg none txns = Except.error ApiError.modelsUnavailable ∧
    ApiError.modelsUnavailable.statusCode = 503 ∧
    predict_fraud_batch cfg (some arts) [] = Except.error ApiError.emptyBatch ∧
    ApiError.emptyBatch.statusCode = 400 :=
  ⟨rfl, rfl, rfl, rfl⟩

/-! ## C5: single-prediction failure modes -/

/-- C5. `predict_fraud` fails with `ModelsUnavailable` when the artifacts are
not loaded; with artifacts loaded it fails — with a 500-status prediction
error whose payload lists exactly the missing column names — precisely when
some name in the artifact's ordered column list is absent from the flattened
transaction map. -/
theorem predict_fraud_errors (cfg : RiskConfig) (arts : ArtifactSet)
    (txn : Transaction) :
    predict_fraud cfg none txn = Except.error ApiError.modelsUnavailable ∧
    ApiError.modelsUnavailable.statusCode = 503 ∧
    ((∃ col ∈ arts.model_columns, ¬ (txn.toDict.map Prod.fst).contains col) ↔
      predict_fraud cfg (some arts) txn = Except.error
        (ApiError.predictionError ⟨arts.model_columns.filter
          (fun col => ¬ (txn.toDict.map Prod.fst).contains col)⟩)) ∧
    (ApiError.predictionError ⟨arts.model_columns.filter
        (fun col => ¬ (txn.toDict.map Prod.fst).contains col)⟩).statusCode
      = 500 := by
  refine ⟨rfl, rfl, ?_, rfl⟩
  constructor
  · intro hex
    have hne : arts.model_columns.filter
        (fun col => ¬ (txn.toDict.map Prod.fst).contains col) ≠ [] := by
      obtain ⟨col, hmem, hno⟩ := hex
      intro hnil
      have : col ∈ arts.model_columns.filter
          (fun col => ¬ (txn.toDict.map Prod.fst).contains col) := by
        rw [List.mem_filter]
        exact ⟨hmem, by simpa using hno⟩
      rw [hnil] at this
      exact absurd this (List.not_mem_nil col)
    simp only [predict_fraud, predict_single_transaction, if_pos hne]
  · intro heq
    by_contra hno
    push_neg at hno
    have hnil : arts.model_columns.filter
        (fun col => ¬ (txn.toDict.map Prod.fst).contains col) = [] := by
      rw [List.filter_eq_nil_iff]
      intro col hmem
      simpa using hno col hmem
    simp only [predict_fraud, predict_single_transaction, hnil] at heq
    simp at heq

/-- Witness for C5 at a concrete artifact set whose column list names a
column that no transaction possesses. -/
theorem predict_fraud_errors_witness :
    predict_fraud defaultRiskConfig none exampleTransaction =
      Except.error ApiError.modelsUnavailable ∧
    predict_fraud defaultRiskConfig
        (some { exampleArtifacts with model_columns := ["amount", "phantom"] })
        exampleTransaction =
      Except.error (ApiError.predictionError ⟨["phantom"]⟩) := by
  have h := predict_fraud_errors defaultRiskConfig
    { exampleArtifacts with model_columns := ["amount", "phantom"] }
    exampleTransaction
  refine ⟨h.1, ?_⟩
  have hex : ∃ col ∈ ({ exampleArtifacts with
      model_columns := ["amount", "phantom"] } : ArtifactSet).model_columns,
      ¬ (exampleTransaction.toDict.map Prod.fst).contains col :=
    ⟨"phantom", by simp [exampleArtifacts], by decide⟩
  have := h.2.2.1.mp hex
  simpa [exampleArtifacts, Transaction.toDict, exampleTransaction] using this

/-! ## Rounding bounds (helpers for C9) -/

theorem roundHalfEven_nonneg (q : ℚ) (h : 0 ≤ q) : 0 ≤ roundHalfEven q := by
  simp only [roundHalfEven]
  have hf : (0 : ℤ) ≤ ⌊q⌋ := Int.floor_nonneg.mpr h
  split_ifs <;> omega

theorem roundHalfEven_le (q : ℚ) (n : ℤ) (h : q ≤ (n : ℚ)) :
    roundHalfEven q ≤ n := by
  simp only [roundHalfEven]
  have hf : ⌊q⌋ ≤ n := by
    have := Int.floor_le_floor h
    simpa using this
  have hq : (⌊q⌋ : ℚ) ≤ q := Int.floor_le q
  split_ifs with h1 h2 h3
  · exact hf
  · have hlt : (⌊q⌋ : ℚ) < (n : ℚ) := by
      push_cast at h2 ⊢
      linarith
    have := Int.cast_lt.mp hlt
    omega
  · exact hf
  · have heq : q - (⌊q⌋ : ℚ) = 1 / 2 := le_antisymm (not_lt.mp h2) (not_lt.mp h1)
    have hlt : (⌊q⌋ : ℚ) < (n : ℚ) := by linarith
    have := Int.cast_lt.mp hlt
    omega

theorem pyRound4_nonneg (q : ℚ) (h : 0 ≤ q) : 0 ≤ pyRound4 q := by
  unfold pyRound4
  have := roundHalfEven_nonneg (q * 10000) (by positivity)
  positivity

theorem pyRound4_le_one (q : ℚ) (h : q ≤ 1) : pyRound4 q ≤ 1 := by
  unfold pyRound4
  have hb : roundHalfEven (q * 10000) ≤ (10000 : ℤ) :=
    roundHalfEven_le _ 10000 (by push_cast; linarith)
  rw [div_le_one (by norm_num)]
  exact_mod_cast hb

/-! ## C9: shape of a successful prediction -/

/-- C9. For artifacts whose classifier returns class 0 or 1 and whose
class-1 probability lies in `[0,1]`, every successful prediction echoes the
input identifiers, has `fraud_prediction ∈ {0,1}`, and reports as
`fraud_probability` the classifier's class-1 probability rounded half-even to
4 decimal places, which lies in `[0,1]`. -/
theorem predict_single_output (cfg : RiskConfig) (arts : ArtifactSet)
    (txn : Transaction) (r : FraudPredictionResponse)
    (hok : predict_single_transaction cfg arts txn = Except.ok r)
    (hpred : ∀ v, arts.predictFn v = 0 ∨ arts.predictFn v = 1)
    (hprob : ∀ v, 0 ≤ arts.probaFn v ∧ arts.probaFn v ≤ 1) :
    r.transaction_id = (txn.transaction_id : ℚ) ∧
    r.customer_id = (txn.customer_id : ℚ) ∧
    (r.fraud_prediction = 0 ∨ r.fraud_prediction = 1) ∧
    r.fraud_probability = pyRound4 (arts.probaFn (arts.scalerFn
      (arts.model_columns.map
        (fun col => (txn.toDict.lookup col).getD 0)))) ∧
    0 ≤ r.fraud_probability ∧ r.fraud_probability ≤ 1 := by
  simp only [predict_single_transaction] at hok
  by_cases hm : arts.model_columns.filter
      (fun col => ¬ (txn.toDict.map Prod.fst).contains col) ≠ []
  · rw [if_pos hm] at hok
    exact absurd hok (by simp)
  · rw [if_neg hm] at hok
    have hr := (Except.ok.injEq _ _).mp hok
    subst hr
    refine ⟨?_, ?_, hpred _, rfl, pyRound4_nonneg _ (hprob _).1,
      pyRound4_le_one _ (hprob _).2⟩
    · simp [Transaction.toDict, List.lookup]
    · simp [Transaction.toDict, List.lookup]

/-- Witness for C9 at the concrete example artifacts and transaction. -/
theorem predict_single_output_witness :
    ∃ r, predict_single_transaction defaultRiskConfig exampleArtifacts
        exampleTransaction = Except.ok r ∧
      (r.transaction_id = (exampleTransaction.transaction_id : ℚ) ∧
       r.customer_id = (exampleTransaction.customer_id : ℚ) ∧
       (r.fraud_prediction = 0 ∨ r.fraud_prediction = 1) ∧
       r.fraud_probability =
         pyRound4 (exampleArtifacts.probaFn (exampleArtifacts.scalerFn
           (exampleArtifacts.model_columns.map
             (fun col => (exampleTransaction.toDict.lookup col).getD 0)))) ∧
       0 ≤ r.fraud_probability ∧ r.fraud_probability ≤ 1) :=
  ⟨_, rfl,
    predict_single_output defaultRiskConfig exampleArtifacts
      exampleTransaction _ rfl (fun _ => Or.inr rfl)
      (fun _ => by norm_num [exampleArtifacts])⟩

/-! ## C10: the risk tier is computed from the raw probability -/

/-- Artifacts whose class-1 probability is 0.69996, strictly below the high
threshold but within 0.00005 of it. -/
def nearThresholdArtifacts : ArtifactSet :=
  { exampleArtifacts with probaFn := fun _ => 17499 / 25000 }

/-- C10. `risk_level` is computed from the raw classifier probability, not
from the rounded `fraud_probability` of the same response: at raw
probability 0.69996 (strictly below the 0.7 high threshold, within 0.00005
of it) the response reports `fraud_probability` equal to the high threshold
while `risk_level` is the moderate label — which differs from the tier of
the rounded probability. -/
theorem risk_level_uses_raw_probability :
    (17499 / 25000 : ℚ) < defaultRiskConfig.FRAUD_RISK_HIGH_THRESHOLD ∧
    defaultRiskConfig.FRAUD_RISK_HIGH_THRESHOLD - 17499 / 25000 < 5 / 100000 ∧
    (∀ v, nearThresholdArtifacts.probaFn v = 17499 / 25000) ∧
    ∃ r, predict_single_transaction defaultRiskConfig nearThresholdArtifacts
        exampleTransaction = Except.ok r ∧
      r.fraud_probability = defaultRiskConfig.FRAUD_RISK_HIGH_THRESHOLD ∧
      r.risk_level = defaultRiskConfig.FRAUD_RISK_MODERATE_LABEL ∧
      r.risk_level ≠ risk_category defaultRiskConfig r.fraud_probability := by
  refine ⟨by norm_num [defaultRiskConfig], by norm_num [defaultRiskConfig],
    fun _ => rfl, _, rfl, ?_, ?_, ?_⟩
  · norm_num [nearThresholdArtifacts, exampleArtifacts, defaultRiskConfig,
      pyRound4, roundHalfEven]
  · norm_num [nearThresholdArtifacts, exampleArtifacts, defaultRiskConfig,
      risk_category]
  · norm_num [nearThresholdArtifacts, exampleArtifacts, defaultRiskConfig,
      risk_category, pyRound4, roundHalfEven]
    decide

/-! ## Artifact loader (`load_fraud_models`, ml.py lines 18-44)

The three module-level globals `model`, `scaler`, `model_columns` are the
loader state (opaque deserialized blobs, modelled as `ℕ` tokens). The disk
is the input: for each artifact file, whether it exists and what
`joblib.load` does on it (`Except.error` models a raised deserialization
exception). The Python body assigns the three globals one after another
inside a single `try`, and the `except` clause only prints — so an
exception thrown by a later `joblib.load` leaves the earlier assignments in
place. -/

deriving instance DecidableEq for Except

structure MLGlobals where
  model : Option ℕ
  scaler : Option ℕ
  model_columns_blob : Option ℕ
deriving DecidableEq, Repr

structure ModelsDisk where
  modelExists : Bool
  scalerExists : Bool
  columnsExists : Bool
  modelLoad : Except String ℕ
  scalerLoad : Except String ℕ
  columnsLoad : Except String ℕ
deriving DecidableEq, Repr

/-- `load_fraud_models()`: check the three paths exist, then run the three
`joblib.load` assignments in order; every exception is caught at the
boundary, keeping whatever assignments already happened. Returns the new
global state. -/
def load_fraud_models (d : ModelsDisk) (s : MLGlobals) : MLGlobals :=
  if d.modelExists && d.scalerExists && d.columnsExists then
    match d.modelLoad with
    | Except.error _ => s
    | Except.ok m =>
      match d.scalerLoad with
      | Except.error _ => { s with model := some m }
      | Except.ok sc =>
        match d.columnsLoad with
        | Except.error _ => { s with model := some m, scaler := some sc }
        | Except.ok c => ⟨some m, some sc, some c⟩
  else s

/-- The loaded check used by the endpoints:
`model is not None and scaler is not None and model_columns is not None`. -/
def MLGlobals.isLoaded (s : MLGlobals) : Bool :=
  s.model.isSome && s.scaler.isSome && s.model_columns_blob.isSome

/-! ## C3 (corrected): the loader can leave a partially updated state -/

/-- Counterexample to C3 as stated: all three files exist, the classifier
deserializes, the scaler raises inside `joblib.load`. The load fails, yet
the previously loaded state is NOT left untouched (the classifier global
was already overwritten), and the state still reports loaded. -/
theorem load_fraud_models_midway_failure_cex :
    (ModelsDisk.scalerLoad
        ⟨true, true, true, Except.ok 1, Except.error "corrupt", Except.ok 3⟩).isOk
      = false ∧
    load_fraud_models
        ⟨true, true, true, Except.ok 1, Except.error "corrupt", Except.ok 3⟩
        ⟨some 10, some 20, some 30⟩
      ≠ ⟨some 10, some 20, some 30⟩ ∧
    (load_fraud_models
        ⟨true, true, true, Except.ok 1, Except.error "corrupt", Except.ok 3⟩
        ⟨some 10, some 20, some 30⟩).isLoaded = true := by
  decide

/-- C3 as amended. The loader never raises past its boundary (it is a total
state transformer); it succeeds — installing the three freshly read
artifacts — exactly when all three files exist and deserialize; when a file
is missing, or when the first artifact fails to deserialize, the prior
state is untouched; but when a later artifact fails to deserialize, the
artifacts already read replace their globals while the rest keep their
prior values, so a previously loaded state can be left partially updated. -/
theorem load_fraud_models_characterization (d : ModelsDisk) (s : MLGlobals) :
    ((d.modelExists && d.scalerExists && d.columnsExists) = false →
      load_fraud_models d s = s) ∧
    (∀ m sc c, (d.modelExists && d.scalerExists && d.columnsExists) = true →
      d.modelLoad = Except.ok m → d.scalerLoad = Except.ok sc →
      d.columnsLoad = Except.ok c →
      load_fraud_models d s = ⟨some m, some sc, some c⟩ ∧
        (load_fraud_models d s).isLoaded = true) ∧
    (∀ e, (d.modelExists && d.scalerExists && d.columnsExists) = true →
      d.modelLoad = Except.error e → load_fraud_models d s = s) ∧
    (∀ m e, (d.modelExists && d.scalerExists && d.columnsExists) = true →
      d.modelLoad = Except.ok m → d.scalerLoad = Except.error e →
      load_fraud_models d s = { s with model := some m }) ∧
    (∀ m sc e, (d.modelExists && d.scalerExists && d.columnsExists) = true →
      d.modelLoad = Except.ok m → d.scalerLoad = Except.ok sc →
      d.columnsLoad = Except.error e →
      load_fraud_models d s = { s with model := some m, scaler := some sc }) := by
  refine ⟨?_, ?_, ?_, ?_, ?_⟩
  · intro h
    simp [load_fraud_models, h]
  · intro m sc c h hm hsc hc
    simp [load_fraud_models, h, hm, hsc, hc, MLGlobals.isLoaded]
  · intro e h hm
    simp [load_fraud_models, h, hm]
  · intro m e h hm hsc
    simp [load_fraud_models, h, hm, hsc]
  · intro m sc e h hm hsc hc
    simp [load_fraud_models, h, hm, hsc, hc]

/-- Witness for the amended C3 at concrete disk and state inputs. -/
theorem load_fraud_models_characterization_witness :
    load_fraud_models ⟨true, true, true, Except.ok 1, Except.ok 2, Except.ok 3⟩
        ⟨none, none, none⟩ = ⟨some 1, some 2, some 3⟩ ∧
    load_fraud_models ⟨true, false, true, Except.ok 1, Except.ok 2, Except.ok 3⟩
        ⟨none, none, none⟩ = ⟨none, none, none⟩ :=
  ⟨((load_fraud_models_characterization
      ⟨true, true, true, Except.ok 1, Except.ok 2, Except.ok 3⟩
      ⟨none, none, none⟩).2.1 1 2 3 rfl rfl rfl rfl).1,
   (load_fraud_models_characterization
      ⟨true, false, true, Except.ok 1, Except.ok 2, Except.ok 3⟩
      ⟨none, none, none⟩).1 rfl⟩

/-! ## Worker store (`src/api/routers/workers.py`)

The `Worker` table is modelled as a list of rows; `JOINING_DATE` is an
opaque timestamp. The query interface of the session is modelled directly:
`filter` by predicate, `first` as the first matching row, `order_by` as a
sort, `offset`/`limit` as drop/take. -/

structure WorkerRow where
  WORKER_ID : ℤ
  FIRST_NAME : String
  LAST_NAME : String
  SALARY : ℤ
  JOINING_DATE : ℤ
  DEPARTMENT : String
deriving DecidableEq, Repr

/-- `WorkerUpdate` (all fields optional): `none` models a field absent from
the request, i.e. excluded by `worker.dict(exclude_unset=True)`. -/
structure WorkerUpdate where
  FIRST_NAME : Option String
  LAST_NAME : Option String
  SALARY : Option ℤ
  JOINING_DATE : Option ℤ
  DEPARTMENT : Option String
deriving DecidableEq, Repr

/-- The `setattr(db_worker, field, value)` loop over
`worker.dict(exclude_unset=True)`: each provided field overwrites the row
field, each absent field is untouched. -/
def applyUpdate (w : WorkerRow) (u : WorkerUpdate) : WorkerRow where
  WORKER_ID := w.WORKER_ID
  FIRST_NAME := u.FIRST_NAME.getD w.FIRST_NAME
  LAST_NAME := u.LAST_NAME.getD w.LAST_NAME
  SALARY := u.SALARY.getD w.SALARY
  JOINING_DATE := u.JOINING_DATE.getD w.JOINING_DATE
  DEPARTMENT := u.DEPARTMENT.getD w.DEPARTMENT

inductive WorkersFailure where
  | notFound : WorkersFailure
deriving DecidableEq, Repr

def WorkersFailure.statusCode : WorkersFailure → ℕ
  | .notFound => 404

/-- `PUT /workers/N` (`update_worker`): find the first row with the given
id (404 if none), apply the provided fields in place, commit. Returns the
updated table together with the refreshed row. -/
def update_worker :
    List WorkerRow → ℤ → WorkerUpdate →
      Except WorkersFailure (List WorkerRow × WorkerRow)
  | [], _, _ => Except.error WorkersFailure.notFound
  | w :: ws, wid, u =>
    if w.WORKER_ID = wid then
      Except.ok (applyUpdate w u :: ws, applyUpdate w u)
    else
      match update_worker ws wid u with
      | Except.error e => Except.error e
      | Except.ok (ws2, w2) => Except.ok (w :: ws2, w2)

theorem update_worker_not_found (db : List WorkerRow) (wid : ℤ)
    (u : WorkerUpdate) (h : ∀ w ∈ db, w.WORKER_ID ≠ wid) :
    update_worker db wid u = Except.error WorkersFailure.notFound := by
  induction db with
  | nil => rfl
  | cons w ws ih =>
    have hw : w.WORKER_ID ≠ wid := h w (List.mem_cons_self w ws)
    simp only [update_worker, if_neg hw,
      ih (fun x hx => h x (List.mem_cons_of_mem w hx))]

theorem update_worker_found (db : List WorkerRow) (wid : ℤ)
    (u : WorkerUpdate) (w : WorkerRow)
    (h : db.find? (fun x => x.WORKER_ID == wid) = some w) :
    ∃ i, db[i]? = some w ∧
      update_worker db wid u =
        Except.ok (db.set i (applyUpdate w u), applyUpdate w u) := by
  induction db with
  | nil => simp at h
  | cons x xs ih =>
    by_cases hx : x.WORKER_ID = wid
    · have : w = x := by
        rw [List.find?_cons_of_pos _ (by simpa using hx)] at h
        exact (Option.some.injEq _ _).mp h.symm
      subst this
      exact ⟨0, by simp, by simp only [update_worker, if_pos hx, List.set]⟩
    · rw [List.find?_cons_of_neg _ (by simpa using hx)] at h
      obtain ⟨i, hi, heq⟩ := ih h
      exact ⟨i + 1, by simpa using hi,
        by simp only [update_worker, if_neg hx, heq, List.set]⟩

/-! ## C6: partial update frame -/

/-- C6. `update_worker` fails with 404 `NotFound` when no row has the given
id; otherwise it replaces exactly the first matching row, every field
present in the request overwrites that field of the row, and every omitted
field — and every other row — is left unchanged. -/
theorem update_worker_frame (db : List WorkerRow) (wid : ℤ)
    (u : WorkerUpdate) :
    ((∀ w ∈ db, w.WORKER_ID ≠ wid) →
      update_worker db wid u = Except.error WorkersFailure.notFound ∧
      WorkersFailure.notFound.statusCode = 404) ∧
    (∀ w, db.find? (fun x => x.WORKER_ID == wid) = some w →
      ∃ i, db[i]? = some w ∧
        update_worker db wid u =
          Except.ok (db.set i (applyUpdate w u), applyUpdate w u)) ∧
    (∀ w : WorkerRow,
      (applyUpdate w u).WORKER_ID = w.WORKER_ID ∧
      (u.FIRST_NAME = none → (applyUpdate w u).FIRST_NAME = w.FIRST_NAME) ∧
      (u.LAST_NAME = none → (applyUpdate w u).LAST_NAME = w.LAST_NAME) ∧
      (u.SALARY = none → (applyUpdate w u).SALARY = w.SALARY) ∧
      (u.JOINING_DATE = none →
        (applyUpdate w u).JOINING_DATE = w.JOINING_DATE) ∧
      (u.DEPARTMENT = none → (applyUpdate w u).DEPARTMENT = w.DEPARTMENT) ∧
      (∀ v, u.FIRST_NAME = some v → (applyUpdate w u).FIRST_NAME = v) ∧
      (∀ v, u.LAST_NAME = some v → (applyUpdate w u).LAST_NAME = v) ∧
      (∀ v, u.SALARY = some v → (applyUpdate w u).SALARY = v) ∧
      (∀ v, u.JOINING_DATE = some v → (applyUpdate w u).JOINING_DATE = v) ∧
      (∀ v, u.DEPARTMENT = some v → (applyUpdate w u).DEPARTMENT = v)) := by
  refine ⟨fun h => ⟨update_worker_not_found db wid u h, rfl⟩,
    fun w h => update_worker_found db wid u w h, fun w => ?_⟩
  refine ⟨rfl, ?_, ?_, ?_, ?_, ?_, ?_, ?_, ?_, ?_, ?_⟩
  all_goals first
    | (intro h; simp [applyUpdate, h])
    | (intro v hv; simp [applyUpdate, hv])

/-- Witness for C6: a department-only update of a concrete two-row table
changes only the department of the matching row. -/
theorem update_worker_frame_witness :
    update_worker
        [⟨1, "Ada", "Lovelace", 50000, 18000, "Engineering"⟩,
         ⟨2, "Grace", "Hopper", 60000, 18100, "Research"⟩]
        1 ⟨none, none, none, none, some "Platform"⟩ =
      Except.ok
        ([⟨1, "Ada", "Lovelace", 50000, 18000, "Platform"⟩,
          ⟨2, "Grace", "Hopper", 60000, 18100, "Research"⟩],
         ⟨1, "Ada", "Lovelace", 50000, 18000, "Platform"⟩) ∧
    update_worker
        [⟨1, "Ada", "Lovelace", 50000, 18000, "Engineering"⟩]
        5 ⟨none, none, none, none, some "Platform"⟩ =
      Except.error WorkersFailure.notFound := by
  constructor
  · obtain ⟨i, hi, heq⟩ :=
      (update_worker_frame
        [⟨1, "Ada", "Lovelace", 50000, 18000, "Engineering"⟩,
         ⟨2, "Grace", "Hopper", 60000, 18100, "Research"⟩]
        1 ⟨none, none, none, none, some "Platform"⟩).2.1
        ⟨1, "Ada", "Lovelace", 50000, 18000, "Engineering"⟩ (by decide)
    rcases i with _ | _ | n
    · simpa [applyUpdate] using heq
    · exact absurd hi (by decide)
    · simp at hi
  · exact ((update_worker_frame
      [⟨1, "Ada", "Lovelace", 50000, 18000, "Engineering"⟩]
      5 ⟨none, none, none, none, some "Platform"⟩).1 (by decide)).1

/-! ## Worker listing (`get_workers`, workers.py lines 50-80) -/

/-- The `order_by(Worker.WORKER_ID)` comparison. -/
def workerLe (a b : WorkerRow) : Prop := a.WORKER_ID ≤ b.WORKER_ID

instance : DecidableRel workerLe := fun x y => Int.decLe x.WORKER_ID y.WORKER_ID

instance : IsTotal WorkerRow workerLe := ⟨fun a b => le_total a.WORKER_ID b.WORKER_ID⟩

instance : IsTrans WorkerRow workerLe := ⟨fun _ _ _ => le_trans⟩

/-- `GET /workers` (`get_workers`): `if department:` applies the exact-match
filter only for a truthy (non-empty) string; then `order_by(WORKER_ID)`,
`offset(skip)`, `limit(limit)`. -/
def get_workers (db : List WorkerRow) (skip limit : ℕ)
    (department : Option String) : List WorkerRow :=
  let q := match department with
    | some d => if d ≠ "" then db.filter (fun w => w.DEPARTMENT == d) else db
    | none => db
  let sorted := List.insertionSort workerLe q
  (sorted.drop skip).take limit

/-! ## C7 (corrected): listing is ordered, paginated — but an empty
department string disables the filter -/

/-- Counterexample to C7 as stated: with `department` provided as the empty
string, the code returns every worker (the Python truthiness test
`if department:` skips the filter), not the rows whose department equals
the provided string. -/
theorem get_workers_empty_department_cex :
    get_workers [⟨1, "Ada", "Lovelace", 50000, 18000, "Engineering"⟩] 0 100
        (some "") = [⟨1, "Ada", "Lovelace", 50000, 18000, "Engineering"⟩] ∧
    (⟨1, "Ada", "Lovelace", 50000, 18000, "Engineering"⟩ :
      WorkerRow).DEPARTMENT ≠ "" ∧
    ([⟨1, "Ada", "Lovelace", 50000, 18000, "Engineering"⟩] :
      List WorkerRow).filter (fun w => w.DEPARTMENT == "") = [] := by
  refine ⟨?_, by decide, by decide⟩
  simp [get_workers, List.insertionSort]

/-- C7 as amended. For every store state and optional department there is a
single id-sorted permutation `s` of the filtered rows — where a provided
non-empty department filters by exact match and an absent or empty
department keeps all rows — such that every request returns
`(s.drop skip).take limit`; consequently the order is deterministic, every
page is a contiguous window, and consecutive pages concatenate to one
contiguous window (no row repeated or skipped). -/
theorem get_workers_spec (db : List WorkerRow) (department : Option String) :
    ∃ s : List WorkerRow,
      s.Perm (match department with
        | some d => if d ≠ "" then db.filter (fun w => w.DEPARTMENT == d)
                    else db
        | none => db) ∧
      List.Sorted workerLe s ∧
      (∀ skip limit, get_workers db skip limit department =
        (s.drop skip).take limit) ∧
      (∀ a b c, get_workers db a b department ++
          get_workers db (a + b) c department = (s.drop a).take (b + c)) := by
  refine ⟨List.insertionSort workerLe _, List.perm_insertionSort _ _,
    List.sorted_insertionSort _ _, fun skip limit => rfl, fun a b c => ?_⟩
  have key : ∀ l : List WorkerRow,
      (l.drop a).take b ++ ((l.drop (a + b)).take c) = (l.drop a).take (b + c) :=
    fun l => by rw [List.take_add, ← List.drop_drop]
  exact key _

/-! ## Detailed health check (`detailed_health_check`, health.py lines 31-100)

The environment of one request: what `db.execute(text("SELECT 1")).fetchone()`
does (raise, modelled as `Except.error`, or return a row whose truthiness is
the `Bool`), what `pyodbc.drivers()` does, and the state of the model
directory. The endpoint never raises: it is a total function into the JSON
payload. -/

structure ComponentReport where
  status : String
  details : Option String
  available_drivers : Option (List String)
deriving DecidableEq, Repr

structure HealthReport where
  status : String
  database : ComponentReport
  odbc_drivers : ComponentReport
  ml_models : ComponentReport
deriving DecidableEq, Repr

structure HealthEnv where
  dbProbe : Except String Bool
  odbcDrivers : Except String (List String)
  modelDirExists : Bool
  modelFileCount : ℕ
deriving DecidableEq, Repr

/-- `GET /health/detailed`: start from `status = "healthy"`; the database
probe failure flips the top-level status to `"degraded"` and reports the
component `"unhealthy"` with the failure message; driver-enumeration
failure and a missing model directory are reported as `"warning"` on their
components only. -/
def detailed_health_check (env : HealthEnv) : HealthReport :=
  let dbPart : String × ComponentReport :=
    match env.dbProbe with
    | Except.ok result =>
      ("healthy",
        ⟨if result then "healthy" else "unhealthy",
         some "SQL Server connection successful", none⟩)
    | Except.error e =>
      ("degraded",
        ⟨"unhealthy", some ("Database connection failed: " ++ e), none⟩)
  let odbcComp : ComponentReport :=
    match env.odbcDrivers with
    | Except.ok drivers => ⟨"healthy", none, some drivers⟩
    | Except.error e =>
      ⟨"warning", some ("Could not list ODBC drivers: " ++ e), none⟩
  let mlComp : ComponentReport :=
    if env.modelDirExists then
      ⟨"healthy",
       some ("Models directory exists with " ++
         toString env.modelFileCount ++ " files"), none⟩
    else
      ⟨"warning", some "Models directory does not exist", none⟩
  ⟨dbPart.1, dbPart.2, odbcComp, mlComp⟩

/-! ## C8: probe failure degrades the payload, warnings do not escalate -/

/-- C8. `detailed_health_check` is a total function (every request produces
a payload, never a fault). The top-level status is `"degraded"` exactly when
the store connectivity probe raises — in which case the database component
is `"unhealthy"` and carries the failure message — and `"healthy"`
otherwise; a driver-enumeration failure and a missing model directory mark
their components `"warning"` without touching the top-level status. -/
theorem detailed_health_check_status (env : HealthEnv) :
    ((detailed_health_check env).status =
      match env.dbProbe with
      | Except.ok _ => "healthy"
      | Except.error _ => "degraded") ∧
    (∀ e, env.dbProbe = Except.error e →
      (detailed_health_check env).status = "degraded" ∧
      (detailed_health_check env).database.status = "unhealthy" ∧
      (detailed_health_check env).database.details =
        some ("Database connection failed: " ++ e)) ∧
    (∀ e, env.odbcDrivers = Except.error e →
      (detailed_health_check env).odbc_drivers.status = "warning") ∧
    (env.modelDirExists = false →
      (detailed_health_check env).ml_models.status = "warning") := by
  refine ⟨?_, ?_, ?_, ?_⟩
  · cases h : env.dbProbe <;> simp [detailed_health_check, h]
  · intro e he
    simp [detailed_health_check, he]
  · intro e he
    cases h : env.dbProbe <;> simp [detailed_health_check, h, he]
  · intro hdir
    cases h : env.dbProbe <;> simp [detailed_health_check, h, hdir]

/-- Witness for C8 at a concrete environment with a failing store probe,
failing driver enumeration and a missing model directory. -/
theorem detailed_health_check_status_witness :
    (detailed_health_check
        ⟨Except.error "timeout", Except.error "no pyodbc", false, 0⟩).status
      = "degraded" ∧
    (detailed_health_check
        ⟨Except.error "timeout", Except.error "no pyodbc", false, 0⟩).database.status
      = "unhealthy" ∧
    (detailed_health_check
        ⟨Except.error "timeout", Except.error "no pyodbc", false, 0⟩).database.details
      = some "Database connection failed: timeout" ∧
    (detailed_health_check
        ⟨Except.error "timeout", Except.error "no pyodbc", false, 0⟩).odbc_drivers.status
      = "warning" ∧
    (detailed_health_check
        ⟨Except.error "timeout", Except.error "no pyodbc", false, 0⟩).ml_models.status
      = "warning" := by
  have h := detailed_health_check_status
    ⟨Except.error "timeout", Except.error "no pyodbc", false, 0⟩
  obtain ⟨hdb1, hdb2, hdb3⟩ := h.2.1 "timeout" rfl
  exact ⟨hdb1, hdb2, hdb3, h.2.2.1 "no pyodbc" rfl, h.2.2.2 rfl⟩

end FraudDetection
